import Mathlib

/-
  Shallow embedding of the conversation-routing and rule-evaluation core of
  the repository (src/api/rule_engine.py and src/api/agent_system.py).

  Modelling conventions:
  - JSON scalar values (the values stored in a fact context, used in rule
    conditions and decision payloads) are modelled by the type Value below.
    JSON numbers are modelled as rationals.
  - Python dictionaries holding the fact context are modelled as ordered
    association lists (insertion order preserved, unique keys in practice);
    dict.get is first-match lookup.
  - Python truthiness and equality are modelled explicitly (pyTruthy, pyEq);
    in particular Python booleans are numeric, so True == 1 and False == 0.
  - External collaborator calls (the completion and classification service,
    retrieval, field extraction, decision-text generation) are parameters
    of the modelled functions: each call site takes the result that the
    collaborator would return, with Except Unit modelling a call that
    raises or returns unparsable output.
-/

namespace RagCore

/-- Scalar JSON value as stored in a fact context, in rule conditions and in
decision payloads. JSON numbers are modelled as rationals. -/
inductive Value where
  | str (s : String)
  | num (q : Rat)
  | bool (b : Bool)
  | null
deriving DecidableEq

/-- Python truthiness of a scalar value: None, False, 0 and the empty string
are falsy. -/
def pyTruthy : Value → Bool
  | Value.str s => !(s == "")
  | Value.num q => !(q == 0)
  | Value.bool b => b
  | Value.null => true && false

/-- Python equality (the == operator) on scalar values: no coercion between
strings and numbers, but booleans are instances of int in Python, so a
boolean compares equal to the corresponding number (True == 1, False == 0). -/
def pyEq : Value → Value → Bool
  | Value.str a, Value.str b => a == b
  | Value.num a, Value.num b => a == b
  | Value.bool a, Value.bool b => a == b
  | Value.bool a, Value.num q => (if a then (1 : Rat) else 0) == q
  | Value.num q, Value.bool b => q == (if b then (1 : Rat) else 0)
  | Value.null, Value.null => true
  | _, _ => false

/-- Fact context: mapping from field name to value, owned by the caller.
Modelled as an association list in insertion order. -/
abbrev Ctx := List (String × Value)

/-- Python context.get(field): first entry with the given key, if any. -/
def ctxGet (ctx : Ctx) (f : String) : Option Value :=
  (ctx.find? (fun p => p.1 == f)).map (fun p => p.2)

/-- Python (field in context). -/
def ctxHas (ctx : Ctx) (f : String) : Bool :=
  ctx.any (fun p => p.1 == f)

/-- Python context[field] = v: replace in place when the key exists,
append otherwise (dict insertion-order semantics). -/
def ctxSet (ctx : Ctx) (f : String) (v : Value) : Ctx :=
  if ctxHas ctx f then ctx.map (fun p => if p.1 == f then (f, v) else p)
  else ctx ++ [(f, v)]

/-- Python dict.update applied entry by entry: the caller merging the
returned context_updates into its context. -/
def mergeCtx (ctx upd : Ctx) : Ctx :=
  upd.foldl (fun c kv => ctxSet c kv.1 kv.2) ctx

/-- Numeric value of a list of decimal digits. -/
def digitsToNat (ds : List Char) : Nat :=
  ds.foldl (fun a c => 10 * a + (c.toNat - 48)) 0

/-- Attempt to match the regular expression -?[0-9]+(.[0-9]+)? at the start
of the character list (the regex used by RuleEngine._to_number); greedy on
each part, returning the matched number. A lone minus sign with no digit
after it does not match (the optional sign backtracks to empty and the
digit class then fails at the minus sign itself). -/
def matchNumAt (cs : List Char) : Option Rat :=
  let signed := match cs with
    | '-' :: r => (true, r)
    | _ => (false, cs)
  let neg := signed.1
  let rest := signed.2
  let ds := rest.takeWhile Char.isDigit
  let rest2 := rest.dropWhile Char.isDigit
  if ds.isEmpty then none
  else
    let ip : Rat := (digitsToNat ds : Nat)
    let q : Rat :=
      match rest2 with
      | '.' :: r2 =>
        let fs := r2.takeWhile Char.isDigit
        if fs.isEmpty then ip
        else ip + (digitsToNat fs : Rat) / ((10 : Rat) ^ fs.length)
      | _ => ip
    some (if neg then -q else q)

/-- re.search for the number regex: leftmost starting position wins. -/
def searchNum : List Char → Option Rat
  | [] => none
  | c :: rest =>
    match matchNumAt (c :: rest) with
    | some q => some q
    | none => searchNum rest

/-- RuleEngine._to_number: ints and floats pass through (and Python booleans,
being instances of int, pass through as 1 and 0); for a string the first
signed decimal number found inside it is extracted; anything else fails. -/
def toNumber : Value → Option Rat
  | Value.num q => some q
  | Value.bool b => some (if b then 1 else 0)
  | Value.str s => searchNum s.data
  | Value.null => none

/-- One condition of a rule: either an exact value or a numeric range
constraint (a JSON object with optional min and optional max keys; the code
treats every dict condition as a range). -/
inductive Cond where
  | exact (v : Value)
  | range (min max : Option Rat)
deriving DecidableEq

/-- Check of a single condition against a present, non-null stored value
(body of the loop in RuleEngine._matches). -/
def condCheck : Cond → Value → Bool
  | Cond.exact c, v => pyEq v c
  | Cond.range mn mx, v =>
    let vn := toNumber v
    (match mn with
     | none => true
     | some m => match vn with
       | none => false
       | some n => decide (m ≤ n))
    &&
    (match mx with
     | none => true
     | some m => match vn with
       | none => false
       | some n => decide (n ≤ m))

/-- One iteration of the RuleEngine._matches loop: a field whose value is
missing or null in the context fails the condition. -/
def fieldMatches (ctx : Ctx) (f : String) (c : Cond) : Bool :=
  match ctxGet ctx f with
  | none => false
  | some Value.null => false
  | some v => condCheck c v

/-- RuleEngine._matches: conjunctive match of all conditions of a rule. -/
def matchesConds (conds : List (String × Cond)) (ctx : Ctx) : Bool :=
  conds.all (fun p => fieldMatches ctx p.1 p.2)

/-- One rule of the declarative rule file: optional priority (the code reads
rule.get(priority, 0)), the condition set (when) and the decision payload
(then); a rule file whose rule has a null or absent then key is modelled
with payload Value.null, matching what rule.get(then) returns. -/
structure Rule where
  priority : Option Rat
  when_ : List (String × Cond)
  then_ : Value
deriving DecidableEq

/-- Sort key used in RuleEngine.__init__: x.get(priority, 0). -/
def priorityKey (r : Rule) : Rat :=
  r.priority.getD 0

/-- Question definition attached to a required field. Modelled from the spec:
the rule files themselves are data files outside src/, and the spec describes
a question definition as prompt text plus an optional enumerated option set
(each option a value with a label). -/
structure QuestionDef where
  question : String
  options : Option (List (String × String))
deriving DecidableEq

/-- Parsed content of one rule file: rules in declaration order, required
field names in declaration order, and the question definitions of
missing_info_behavior. -/
structure RuleData where
  rules : List Rule
  required_fields : List String
  questions : List (String × QuestionDef)
deriving DecidableEq

/-- Loaded rule engine: RuleEngine.__init__ keeps the raw data and the rules
sorted by descending priority (Python sorted with reverse=True is stable, so
equal priorities keep declaration order; modelled by a stable merge sort with
the reversed comparison). -/
structure RuleEngine where
  rules : List Rule
  data : RuleData
deriving DecidableEq

/-- RuleEngine.__init__ on already-parsed rule data. -/
def RuleEngine.init (d : RuleData) : RuleEngine :=
  { rules := d.rules.mergeSort (fun a b => decide (priorityKey b ≤ priorityKey a)),
    data := d }

/-- Loop of RuleEngine.evaluate over the sorted rules: the then payload of
the first matching rule, or nothing when no rule matches. -/
def evalRules : List Rule → Ctx → Option Value
  | [], _ => none
  | r :: rs, ctx =>
    if matchesConds r.when_ ctx then some r.then_ else evalRules rs ctx

/-- RuleEngine.evaluate. -/
def RuleEngine.evaluate (e : RuleEngine) (ctx : Ctx) : Option Value :=
  evalRules e.rules ctx

/-- Predicate of the list comprehension in RuleEngine.get_missing_info:
a required field counts as missing when it is absent from the context, its
stored value is None, or its stored value equals the empty string. -/
def isMissingIn (ctx : Ctx) (f : String) : Bool :=
  match ctxGet ctx f with
  | none => true
  | some v => decide (v = Value.null) || pyEq v (Value.str "")

/-- Lookup in the questions mapping of missing_info_behavior. -/
def lookupQ (qs : List (String × QuestionDef)) (f : String) : Option QuestionDef :=
  (qs.find? (fun p => p.1 == f)).map (fun p => p.2)

/-- Payload returned by RuleEngine.get_missing_info for the first missing
required field (the constant status NEED_INFO is omitted). -/
structure MissingInfo where
  missing_field : String
  question : String
  options : Option (List (String × String))
deriving DecidableEq

/-- RuleEngine.get_missing_info: the first required field (declaration order)
that is absent, null or empty, packaged with its question prompt and option
list (with the fallback prompt built from the field name when the field has
no question definition). -/
def get_missing_info (e : RuleEngine) (ctx : Ctx) : Option MissingInfo :=
  match e.data.required_fields.filter (fun f => isMissingIn ctx f) with
  | [] => none
  | f :: _ =>
    match lookupQ e.data.questions f with
    | some qd => some { missing_field := f, question := qd.question, options := qd.options }
    | none => some { missing_field := f, question := "Please provide " ++ f, options := none }

/-- Lowercasing as used by message.lower() (ASCII letters; accented letters
pass through unchanged in the model, which is enough for the ASCII keyword
checks of the code). -/
def lowerStr (s : String) : String :=
  String.mk (s.data.map Char.toLower)

/-- Uppercasing as used by res.text.upper(). -/
def upperStr (s : String) : String :=
  String.mk (s.data.map Char.toUpper)

/-- str.strip(): drop whitespace from both ends. -/
def stripStr (s : String) : String :=
  String.mk (((s.data.dropWhile Char.isWhitespace).reverse.dropWhile Char.isWhitespace).reverse)

/-- Python substring containment (sub in s). -/
def containsSub (s pat : String) : Bool :=
  s.data.tails.any (fun t => pat.data.isPrefixOf t)

/-- str.split(sep) with an explicit one-character separator, on the
character list: splitting the empty string yields one empty group. -/
def splitChar (sep : Char) : List Char → List (List Char)
  | [] => [[]]
  | c :: rest =>
    if c = sep then [] :: splitChar sep rest
    else
      match splitChar sep rest with
      | [] => [[c]]
      | g :: gs => (c :: g) :: gs

/-- flow_step.split(underscore) as used in process_request. -/
def splitUnderscore (fs : String) : List String :=
  (splitChar '_' fs.data).map (fun g => String.mk g)

/-- Python truthiness of an optional string (None and the empty string are
falsy), used for flow_step and for extraction results. -/
def truthyOpt : Option String → Bool
  | none => false
  | some s => !(s == "")

/-- Python (flow_step and flow_step.startswith(pre)). -/
def flowStartsWith (fs : Option String) (pre : String) : Bool :=
  truthyOpt fs &&
    (match fs with
     | some s => pre.data.isPrefixOf s.data
     | none => false)

/-- Parsed JSON reply of the turn-analysis classifier call. An Except error
stands for the whole try block failing: the collaborator call raising, the
reply not being JSON, or a required key being absent. -/
structure TurnJson where
  classification : String
  detected_intent : String
deriving DecidableEq

/-- Result of AgentSystem._analyze_turn. -/
structure Analysis where
  intent : String
  is_interruption : Bool
deriving DecidableEq

/-- Label derivation of AgentSystem._classify_intent from the collaborator
reply text: res.text.strip().upper() scanned for the category keywords. -/
def classifyLabel (t : String) : String :=
  let text := upperStr (stripStr t)
  if containsSub text "STOP" then "STOP_DELIVERY"
  else if containsSub text "URGENT" then "URGENT_NOTICE"
  else if containsSub text "FAQ" then "FAQ"
  else "CHAT"

/-- AgentSystem._classify_intent, taking the collaborator reply as input;
a failing collaborator call propagates (the function has no try block). -/
def classifyIntent (clsRes : Except Unit String) : Except Unit String :=
  match clsRes with
  | Except.ok t => Except.ok (classifyLabel t)
  | Except.error e => Except.error e

/-- Keyword heuristic of the except branch of AgentSystem._analyze_turn
(presence of one of the affirmative, negative or domain action words as a
substring of the lowercased message). -/
def keywordHit (message : String) : Bool :=
  let m := lowerStr message
  containsSub m "cambia" || containsSub m "botella" || containsSub m "caja" ||
    containsSub m "si" || containsSub m "no"

/-- AgentSystem._analyze_turn. With no (truthy) flow step it delegates to
the plain intent classifier; with a flow step it reads the structured
classifier reply, and on failure falls back to the keyword heuristic and
then to the plain intent classifier, whose own failure propagates. -/
def analyzeTurn (turnRes : Except Unit TurnJson) (clsRes : Except Unit String)
    (message : String) (_history : List (String × String)) (flow_step : Option String) :
    Except Unit Analysis :=
  if truthyOpt flow_step = false then
    match classifyIntent clsRes with
    | Except.ok intent => Except.ok { intent := intent, is_interruption := false }
    | Except.error e => Except.error e
  else
    match turnRes with
    | Except.ok d =>
      if d.classification == "ANSWER_FLOW" then
        Except.ok { intent := "ANSWER_FLOW", is_interruption := false }
      else if d.classification == "INTERRUPTION" then
        Except.ok { intent := d.detected_intent, is_interruption := true }
      else
        Except.ok { intent := d.detected_intent, is_interruption := false }
    | Except.error _ =>
      if keywordHit message then
        Except.ok { intent := "ANSWER_FLOW", is_interruption := false }
      else
        match classifyIntent clsRes with
        | Except.ok intent => Except.ok { intent := intent, is_interruption := !(intent == "CHAT") }
        | Except.error e => Except.error e

/-- Diagnostic payload (debug_info) of a response: the collecting-info trace
with the missing field it names, the raw decision payload, the no-rule-matched
marker, or the context-used trace of the retrieval handler. -/
inductive DebugInfo where
  | collecting (missingField : String)
  | decision (d : Value)
  | noRule
  | ragUsed (contextUsed : Value)
deriving DecidableEq

/-- Unified response envelope assembled by the routing code. Fields that a
branch leaves out of its dict are modelled as none. -/
structure Response where
  answer : String
  context_updates : Ctx
  flow_step : Option String
  source : String
  sources_data : Option Value := none
  debug_info : Option DebugInfo := none
deriving DecidableEq

/-- Result of the retrieval collaborator as consumed by _handle_rag: the
generated answer, the sources payload and the context-used trace. -/
structure RagOut where
  answer : String
  sources_data : Value
  context_used : Value
deriving DecidableEq

/-- AgentSystem._handle_rag given the collaborator result. -/
def handleRag (rag : RagOut) : Response :=
  { answer := rag.answer, context_updates := [], flow_step := none, source := "RAG",
    sources_data := some rag.sources_data,
    debug_info := some (DebugInfo.ragUsed rag.context_used) }

/-- Fixed fallback answer of _handle_stop_delivery when no rule matched. -/
def stopFallbackAnswer : String :=
  "No he podido determinar una acción automática para tu caso. Un agente humano revisará tu solicitud."

/-- Fixed fallback answer of _handle_urgent_notice when no rule matched. -/
def urgentFallbackAnswer : String :=
  "No podemos procesar el aviso urgente con los datos actuales."

/-- Tail of _handle_stop_delivery once no required field is missing: evaluate
the rules; the code tests the returned payload with Python truthiness, so a
matching rule whose payload is falsy (null, empty or zero) is handled by the
no-rule-matched branch. -/
def finishStop (e : RuleEngine) (gen : Value → String) (ctx : Ctx) : Response :=
  match e.evaluate ctx with
  | some d =>
    if pyTruthy d then
      { answer := gen d, context_updates := ctx, flow_step := none,
        source := "AGENT_STOP", debug_info := some (DebugInfo.decision d) }
    else
      { answer := stopFallbackAnswer, context_updates := [], flow_step := none,
        source := "AGENT_STOP", debug_info := some DebugInfo.noRule }
  | none =>
      { answer := stopFallbackAnswer, context_updates := [], flow_step := none,
        source := "AGENT_STOP", debug_info := some DebugInfo.noRule }

/-- Python truthiness test (if extracted:) applied to the result of
_extract_field: None and the empty string count as nothing extracted. -/
def normExtract : Option String → Option String
  | some v => if v == "" then none else some v
  | none => none

/-- AgentSystem._handle_stop_delivery. The extract parameter is the
_extract_field collaborator (field name and option list to extracted value);
gen is the _generate_decision_response collaborator. Returns the response
together with the context after the in-place writes the handler performs on
the caller-owned dict. Note that after a successful extraction the local
name missing is rebound to the next missing field, so the context_updates
of that branch are keyed by the next missing field, not by the field that
was just extracted. -/
def handleStopDelivery (e : RuleEngine)
    (extract : String → Option (List (String × String)) → Option String)
    (gen : Value → String) (_message : String) (ctx : Ctx) : Response × Ctx :=
  match get_missing_info e ctx with
  | some missing =>
    match normExtract (extract missing.missing_field missing.options) with
    | some v =>
      match get_missing_info e (ctxSet ctx missing.missing_field (Value.str v)) with
      | none => (finishStop e gen (ctxSet ctx missing.missing_field (Value.str v)),
                 ctxSet ctx missing.missing_field (Value.str v))
      | some missing2 =>
        ({ answer := "Gracias. " ++ missing2.question,
           context_updates := [(missing2.missing_field, Value.str v)],
           flow_step := some "STOP_DELIVERY", source := "AGENT_STOP",
           debug_info := some (DebugInfo.collecting missing2.missing_field) },
         ctxSet ctx missing.missing_field (Value.str v))
    | none =>
      ({ answer := missing.question, context_updates := ctx,
         flow_step := some "STOP_DELIVERY", source := "AGENT_STOP",
         debug_info := some (DebugInfo.collecting missing.missing_field) }, ctx)
  | none => (finishStop e gen ctx, ctx)

/-- Tail of _handle_urgent_notice once no required field is missing. -/
def finishUrgent (e : RuleEngine) (gen : Value → String) (ctx : Ctx) : Response :=
  match e.evaluate ctx with
  | some d =>
    if pyTruthy d then
      { answer := gen d, context_updates := ctx, flow_step := none,
        source := "AGENT_URGENT", debug_info := some (DebugInfo.decision d) }
    else
      { answer := urgentFallbackAnswer, context_updates := [], flow_step := none,
        source := "AGENT_URGENT", debug_info := some DebugInfo.noRule }
  | none =>
      { answer := urgentFallbackAnswer, context_updates := [], flow_step := none,
        source := "AGENT_URGENT", debug_info := some DebugInfo.noRule }

/-- Producto keyword inference of _handle_urgent_notice: when extraction of
the producto field yields nothing, infer the product from keyword presence
in the lowercased message. -/
def urgentInfer (missingField : String) (message : String) (x : Option String) :
    Option String :=
  if missingField == "producto" && (normExtract x).isNone then
    (if containsSub (lowerStr message) "agua" then some "agua"
     else if containsSub (lowerStr message) "cafe" || containsSub (lowerStr message) "café" then
       some "cafe"
     else none)
  else normExtract x

/-- AgentSystem._handle_urgent_notice, with the producto keyword inference
applied when extraction yields nothing for that field. It shares the
rebinding of missing described on handleStopDelivery, but its no-extraction
branch returns empty context_updates instead of the whole context. -/
def handleUrgentNotice (e : RuleEngine)
    (extract : String → Option (List (String × String)) → Option String)
    (gen : Value → String) (message : String) (ctx : Ctx) : Response × Ctx :=
  match get_missing_info e ctx with
  | some missing =>
    match urgentInfer missing.missing_field message
        (extract missing.missing_field missing.options) with
    | some v =>
      match get_missing_info e (ctxSet ctx missing.missing_field (Value.str v)) with
      | none => (finishUrgent e gen (ctxSet ctx missing.missing_field (Value.str v)),
                 ctxSet ctx missing.missing_field (Value.str v))
      | some missing2 =>
        ({ answer := missing2.question,
           context_updates := [(missing2.missing_field, Value.str v)],
           flow_step := some "URGENT_NOTICE", source := "AGENT_URGENT",
           debug_info := some (DebugInfo.collecting missing2.missing_field) },
         ctxSet ctx missing.missing_field (Value.str v))
    | none =>
      ({ answer := missing.question, context_updates := [],
         flow_step := some "URGENT_NOTICE", source := "AGENT_URGENT",
         debug_info := some (DebugInfo.collecting missing.missing_field) }, ctx)
  | none => (finishUrgent e gen ctx, ctx)

/-- Fixed resumption-hint suffix appended by the interruption branch of
process_request. -/
def resumptionHint : String :=
  "\n\n_(Por cierto, seguimos pendientes de tu gestión anterior. ¿Deseas continuar?)_"

/-- AgentSystem.process_request. Collaborator results are parameters:
turnRes and clsRes feed _analyze_turn, rag is the retrieval result,
chatText the plain-chat reply, the extract functions the _extract_field
collaborator per engine and the gen functions _generate_decision_response.
The effective-intent re-derivation for a continuing flow indexes
flow_step.split(underscore) at position 1, which raises IndexError (modelled
as Except.error) whenever the truthy flow marker contains no underscore. -/
def process_request (turnRes : Except Unit TurnJson) (clsRes : Except Unit String)
    (rag : RagOut) (chatText : String)
    (stopExtract urgentExtract : String → Option (List (String × String)) → Option String)
    (stopGen urgentGen : Value → String)
    (stopEngine urgentEngine : RuleEngine)
    (message : String) (history : List (String × String)) (context : Ctx)
    (flow_step : Option String) : Except Unit Response :=
  match analyzeTurn turnRes clsRes message history flow_step with
  | Except.error e => Except.error e
  | Except.ok analysis =>
    let intent0 := analysis.intent
    let is_interruption := analysis.is_interruption
    if is_interruption && (intent0 == "FAQ") then
      Except.ok { answer := rag.answer ++ resumptionHint,
                  context_updates := [], flow_step := flow_step, source := "RAG",
                  sources_data := some rag.sources_data, debug_info := none }
    else
      let intentRes : Except Unit String :=
        if (intent0 == "ANSWER_FLOW") && truthyOpt flow_step then
          match flow_step with
          | some fs =>
            match splitUnderscore fs with
            | p0 :: p1 :: _ =>
              let i := p0 ++ "_" ++ p1
              let i := if containsSub fs "STOP" then "STOP_DELIVERY" else i
              let i := if containsSub fs "URGENT" then "URGENT_NOTICE" else i
              Except.ok i
            | _ => Except.error ()
          | none => Except.ok intent0
        else Except.ok intent0
      match intentRes with
      | Except.error e => Except.error e
      | Except.ok intent =>
        if (intent == "STOP_DELIVERY") || (flowStartsWith flow_step "STOP_" && !is_interruption) then
          Except.ok (handleStopDelivery stopEngine stopExtract stopGen message context).1
        else if (intent == "URGENT_NOTICE") || (flowStartsWith flow_step "URGENT_" && !is_interruption) then
          Except.ok (handleUrgentNotice urgentEngine urgentExtract urgentGen message context).1
        else if intent == "FAQ" then
          Except.ok (handleRag rag)
        else
          Except.ok { answer := chatText, context_updates := [], flow_step := none, source := "CHAT" }

/-- Comparison used to sort the rules in RuleEngine.__init__ (sorted with
key priority and reverse=True). -/
def ruleLE (a b : Rule) : Bool :=
  decide (priorityKey b ≤ priorityKey a)

theorem ruleLE_trans : ∀ a b c : Rule, ruleLE a b = true → ruleLE b c = true → ruleLE a c = true := by
  intro a b c hab hbc
  simp only [ruleLE, decide_eq_true_eq] at *
  exact le_trans hbc hab

theorem ruleLE_total : ∀ a b : Rule, (ruleLE a b || ruleLE b a) = true := by
  intro a b
  rcases le_total (priorityKey b) (priorityKey a) with h | h <;> simp [ruleLE, h]

theorem init_rules_eq (d : RuleData) :
    (RuleEngine.init d).rules = d.rules.mergeSort ruleLE := rfl

theorem evalRules_eq_find (rs : List Rule) (ctx : Ctx) :
    evalRules rs ctx = (rs.find? (fun r => matchesConds r.when_ ctx)).map Rule.then_ := by
  induction rs with
  | nil => rfl
  | cons r rs ih =>
    by_cases h : matchesConds r.when_ ctx
    · simp [evalRules, List.find?_cons, h]
    · simp [evalRules, List.find?_cons, h, ih]

theorem head?_filter_eq_find? {α : Type} (p : α → Bool) (l : List α) :
    (l.filter p).head? = l.find? p := by
  induction l with
  | nil => rfl
  | cons a l ih =>
    by_cases h : p a
    · simp [List.filter_cons, List.find?_cons, h]
    · simp [List.filter_cons, List.find?_cons, h, ih]

theorem ctxGet_eq_none_iff (ctx : Ctx) (f : String) :
    ctxGet ctx f = none ↔ ctxHas ctx f = false := by
  simp only [ctxGet, ctxHas, Option.map_eq_none', List.find?_eq_none]
  constructor
  · intro h
    rw [Bool.eq_false_iff]
    intro hany
    rw [List.any_eq_true] at hany
    obtain ⟨x, hx, hpx⟩ := hany
    exact h x hx hpx
  · intro h x hx hpx
    have : ctx.any (fun p => p.1 == f) = true := List.any_eq_true.2 ⟨x, hx, hpx⟩
    rw [h] at this
    exact Bool.false_ne_true this

theorem pyEq_emptyStr_iff (v : Value) :
    pyEq v (Value.str "") = true ↔ v = Value.str "" := by
  cases v with
  | str s => simp [pyEq]
  | num q => simp [pyEq]
  | bool b => simp [pyEq]
  | null => simp [pyEq]

theorem isMissingIn_false_iff (ctx : Ctx) (f : String) :
    isMissingIn ctx f = false ↔
      ctxHas ctx f = true ∧ ctxGet ctx f ≠ some Value.null ∧
        ctxGet ctx f ≠ some (Value.str "") := by
  unfold isMissingIn
  cases hg : ctxGet ctx f with
  | none =>
    have := (ctxGet_eq_none_iff ctx f).1 hg
    simp [this]
  | some v =>
    have hhas : ctxHas ctx f = true := by
      cases h : ctxHas ctx f
      · have hn := (ctxGet_eq_none_iff ctx f).2 h
        rw [hn] at hg
        simp at hg
      · rfl
    have hemp : (pyEq v (Value.str "") = false) ↔ ¬(v = Value.str "") := by
      rw [Bool.eq_false_iff]
      exact not_congr (pyEq_emptyStr_iff v)
    simp only [hhas, true_and, Bool.or_eq_false_iff, decide_eq_false_iff_not, ne_eq,
      Option.some.injEq, hemp]

/-- C1: RuleEngine.evaluate returns the decision (then payload) of the first
rule whose condition set matches when the rules are taken in descending
priority order, with equal priorities kept in declaration order (the sorted
rule list is a permutation of the declared rules, is sorted by descending
priority key, and preserves the relative declaration order of any pair whose
priorities do not force a swap); it returns nothing exactly when no declared
rule matches the context. -/
theorem claim_C1 (d : RuleData) (ctx : Ctx) :
    ((RuleEngine.init d).rules).Perm d.rules ∧
    ((RuleEngine.init d).rules).Pairwise (fun a b => priorityKey b ≤ priorityKey a) ∧
    (∀ a b : Rule, priorityKey b ≤ priorityKey a → [a, b].Sublist d.rules →
      [a, b].Sublist (RuleEngine.init d).rules) ∧
    (RuleEngine.init d).evaluate ctx =
      (((RuleEngine.init d).rules.find? (fun r => matchesConds r.when_ ctx)).map Rule.then_) ∧
    ((RuleEngine.init d).evaluate ctx = none ↔
      ∀ r ∈ d.rules, matchesConds r.when_ ctx = false) := by
  have hperm : ((RuleEngine.init d).rules).Perm d.rules := by
    rw [init_rules_eq]
    exact List.mergeSort_perm d.rules ruleLE
  refine ⟨hperm, ?_, ?_, ?_, ?_⟩
  · rw [init_rules_eq]
    exact (List.sorted_mergeSort ruleLE_trans ruleLE_total d.rules).imp
      (fun h => by simpa [ruleLE] using h)
  · intro a b hle hsub
    rw [init_rules_eq]
    exact List.pair_sublist_mergeSort ruleLE_trans ruleLE_total
      (by simpa [ruleLE] using hle) hsub
  · exact evalRules_eq_find _ ctx
  · rw [RuleEngine.evaluate, evalRules_eq_find]
    simp only [Option.map_eq_none', List.find?_eq_none]
    constructor
    · intro h r hr
      have := h r (hperm.mem_iff.2 hr)
      simpa using this
    · intro h r hr
      have := h r (hperm.mem_iff.1 hr)
      simp [this]

def rC1a : Rule :=
  { priority := some 1, when_ := [("zona", Cond.exact (Value.str "norte"))],
    then_ := Value.str "BAJA" }

def rC1b : Rule :=
  { priority := some 5, when_ := [], then_ := Value.str "ALTA" }

def rC1c : Rule :=
  { priority := some 1, when_ := [], then_ := Value.str "OTRA" }

def dC1 : RuleData :=
  { rules := [rC1a, rC1b, rC1c], required_fields := [], questions := [] }

def ctxC1 : Ctx := [("zona", Value.str "norte")]

/-- Witness for C1 at a concrete rule file with two equal-priority rules and
a higher-priority one. -/
theorem claim_C1_witness :
    (RuleEngine.init dC1).evaluate ctxC1 =
      (((RuleEngine.init dC1).rules.find? (fun r => matchesConds r.when_ ctxC1)).map Rule.then_) ∧
    [rC1a, rC1c].Sublist (RuleEngine.init dC1).rules :=
  ⟨(claim_C1 dC1 ctxC1).2.2.2.1,
   (claim_C1 dC1 ctxC1).2.2.1 rC1a rC1c (by decide)
     (List.Sublist.cons₂ rC1a (List.Sublist.cons rC1b (List.Sublist.refl [rC1c])))⟩

/-- C4: get_missing_info returns nothing exactly when every required field is
present, non-null and non-empty in the context; otherwise it returns the
first required field in declaration order that is absent, null or empty,
packaged with that field question prompt and option list (with the default
prompt when the field has no question definition). -/
theorem claim_C4 (e : RuleEngine) (ctx : Ctx) :
    (get_missing_info e ctx = none ↔
      ∀ f ∈ e.data.required_fields,
        ctxHas ctx f = true ∧ ctxGet ctx f ≠ some Value.null ∧
          ctxGet ctx f ≠ some (Value.str "")) ∧
    (∀ mi, get_missing_info e ctx = some mi →
      e.data.required_fields.find? (fun f => isMissingIn ctx f) = some mi.missing_field ∧
      mi = (match lookupQ e.data.questions mi.missing_field with
            | some qd =>
              { missing_field := mi.missing_field, question := qd.question,
                options := qd.options }
            | none =>
              { missing_field := mi.missing_field,
                question := "Please provide " ++ mi.missing_field, options := none })) ∧
    (∀ f, isMissingIn ctx f = false ↔
      ctxHas ctx f = true ∧ ctxGet ctx f ≠ some Value.null ∧
        ctxGet ctx f ≠ some (Value.str "")) := by
  refine ⟨?_, ?_, fun f => isMissingIn_false_iff ctx f⟩
  · unfold get_missing_info
    cases hfil : e.data.required_fields.filter (fun f => isMissingIn ctx f) with
    | nil =>
      have hall := List.filter_eq_nil_iff.1 hfil
      constructor
      · intro _ f hf
        exact (isMissingIn_false_iff ctx f).1 (Bool.eq_false_iff.2 (hall f hf))
      · intro _
        rfl
    | cons g rest =>
      have hg : g ∈ e.data.required_fields.filter (fun f => isMissingIn ctx f) := by
        rw [hfil]; exact List.mem_cons_self g rest
      have hgmem := List.mem_filter.1 hg
      constructor
      · intro h
        cases hlq : lookupQ e.data.questions g <;> simp [hlq] at h
      · intro h
        exfalso
        have hgood := (isMissingIn_false_iff ctx g).2 (h g hgmem.1)
        rw [hgood] at hgmem
        exact absurd hgmem.2 (by simp)
  · intro mi hmi
    unfold get_missing_info at hmi
    cases hfil : e.data.required_fields.filter (fun f => isMissingIn ctx f) with
    | nil => rw [hfil] at hmi; exact absurd hmi (by simp)
    | cons g rest =>
      rw [hfil] at hmi
      have hfind : e.data.required_fields.find? (fun f => isMissingIn ctx f) = some g := by
        rw [← head?_filter_eq_find?, hfil]
        rfl
      cases hlq : lookupQ e.data.questions g with
      | some qd =>
        simp only [hlq, Option.some.injEq] at hmi
        subst hmi
        exact ⟨hfind, by simp [hlq]⟩
      | none =>
        simp only [hlq, Option.some.injEq] at hmi
        subst hmi
        exact ⟨hfind, by simp [hlq]⟩

def qdMotivo : QuestionDef :=
  { question := "Cual es el motivo?",
    options := some [("exceso_agua", "Exceso de agua")] }

def qdFecha : QuestionDef :=
  { question := "Que fecha quieres parar?", options := none }

def dC4 : RuleData :=
  { rules := [], required_fields := ["motivo", "fecha"],
    questions := [("motivo", qdMotivo), ("fecha", qdFecha)] }

def eC4 : RuleEngine := RuleEngine.init dC4

def ctxC4 : Ctx := [("motivo", Value.str "")]

def miC4 : MissingInfo :=
  { missing_field := "motivo", question := "Cual es el motivo?",
    options := some [("exceso_agua", "Exceso de agua")] }

/-- Witness for C4: a context whose first required field is present but
empty is reported missing with its question prompt and options. -/
theorem claim_C4_witness :
    eC4.data.required_fields.find? (fun f => isMissingIn ctxC4 f) = some miC4.missing_field ∧
    miC4 = (match lookupQ eC4.data.questions miC4.missing_field with
            | some qd =>
              { missing_field := miC4.missing_field, question := qd.question,
                options := qd.options }
            | none =>
              { missing_field := miC4.missing_field,
                question := "Please provide " ++ miC4.missing_field, options := none }) :=
  (claim_C4 eC4 ctxC4).2.1 miC4 (by decide)

/-- C5 counterexample: the claim says a stored value and a condition value of
different types among string, number and boolean never match, but Python
booleans are numeric, so the stored boolean True matches the exact condition
value 1. -/
theorem claim_C5_counterexample :
    ctxGet [("plan", Value.bool true)] "plan" = some (Value.bool true) ∧
    Value.bool true ≠ Value.num 1 ∧
    fieldMatches [("plan", Value.bool true)] "plan" (Cond.exact (Value.num 1)) = true := by
  decide

/-- C5 amended: for an exact-value condition on a present, non-null field the
match is Python equality of the stored and condition values; there is no
coercion between strings and numbers or strings and booleans, and same-type
values match exactly when equal, but a boolean and a number match when the
number is the numeric value of the boolean (True is 1 and False is 0). -/
theorem claim_C5 (ctx : Ctx) (f : String) (v c : Value)
    (h : ctxGet ctx f = some v) (hnn : v ≠ Value.null) :
    fieldMatches ctx f (Cond.exact c) = pyEq v c ∧
    (∀ s q, pyEq (Value.str s) (Value.num q) = false) ∧
    (∀ s b, pyEq (Value.str s) (Value.bool b) = false) ∧
    (∀ q s, pyEq (Value.num q) (Value.str s) = false) ∧
    (∀ b s, pyEq (Value.bool b) (Value.str s) = false) ∧
    (∀ a b, pyEq (Value.str a) (Value.str b) = true ↔ a = b) ∧
    (∀ p q, pyEq (Value.num p) (Value.num q) = true ↔ p = q) ∧
    (∀ a b, pyEq (Value.bool a) (Value.bool b) = true ↔ a = b) ∧
    (∀ b q, pyEq (Value.bool b) (Value.num q) = true ↔ q = (if b then 1 else 0)) ∧
    (∀ q b, pyEq (Value.num q) (Value.bool b) = true ↔ q = (if b then 1 else 0)) := by
  refine ⟨?_, by intros; rfl, by intros; rfl, by intros; rfl, by intros; rfl,
    by intro a b; exact beq_iff_eq, by intro p q; exact beq_iff_eq,
    by intro a b; exact beq_iff_eq,
    by intro b q; rw [show pyEq (Value.bool b) (Value.num q) = ((if b then (1 : Rat) else 0) == q) from rfl, beq_iff_eq]; exact eq_comm,
    by intro q b; exact beq_iff_eq⟩
  unfold fieldMatches
  rw [h]
  cases v with
  | null => exact absurd rfl hnn
  | str s => rfl
  | num q => rfl
  | bool b => rfl

/-- Witness for C5 at a matching same-type pair. -/
theorem claim_C5_witness :
    fieldMatches [("zona", Value.str "norte")] "zona" (Cond.exact (Value.str "norte")) =
      pyEq (Value.str "norte") (Value.str "norte") :=
  (claim_C5 [("zona", Value.str "norte")] "zona" (Value.str "norte") (Value.str "norte")
    (by decide) (by decide)).1

/-- C6 counterexample: the claim says a numeric range condition does not
match when coercion of the stored value fails, but a range condition that
declares neither bound (an empty constraint object) matches any present,
non-null value even though coercion fails on it. -/
theorem claim_C6_counterexample :
    toNumber (Value.str "hola") = none ∧
    fieldMatches [("cantidad", Value.str "hola")] "cantidad" (Cond.range none none) = true := by
  decide

/-- C6 amended: for a numeric range condition on a present, non-null field,
the condition matches exactly when either it declares no bound at all, or the
stored value coerces to a number satisfying every declared bound; when at
least one bound is declared and coercion fails, the condition does not
match. -/
theorem claim_C6 (ctx : Ctx) (f : String) (v : Value) (mn mx : Option Rat)
    (h : ctxGet ctx f = some v) (hnn : v ≠ Value.null) :
    fieldMatches ctx f (Cond.range mn mx) = true ↔
      ((mn = none ∧ mx = none) ∨
        ∃ q, toNumber v = some q ∧ (∀ m, mn = some m → m ≤ q) ∧
          (∀ m, mx = some m → q ≤ m)) := by
  have hfm : fieldMatches ctx f (Cond.range mn mx) = condCheck (Cond.range mn mx) v := by
    unfold fieldMatches
    rw [h]
    cases v with
    | null => exact absurd rfl hnn
    | str s => rfl
    | num q => rfl
    | bool b => rfl
  rw [hfm]
  unfold condCheck
  cases mn with
  | none =>
    cases mx with
    | none => simp
    | some m =>
      cases htn : toNumber v with
      | none => simp [htn]
      | some q => simp [htn]
  | some m =>
    cases mx with
    | none =>
      cases htn : toNumber v with
      | none => simp [htn]
      | some q => simp [htn]
    | some m2 =>
      cases htn : toNumber v with
      | none => simp [htn]
      | some q => simp [htn, and_comm]

/-- Witness for C6 at the spec examples: the range with min 2 matches the
stored string with an embedded 3 and does not match the string with no
number in it. -/
theorem claim_C6_witness :
    (fieldMatches [("cantidad", Value.str "3 botellas")] "cantidad"
        (Cond.range (some 2) none) = true ↔
      (((some (2 : Rat)) = none ∧ (none : Option Rat) = none) ∨
        ∃ q, toNumber (Value.str "3 botellas") = some q ∧
          (∀ m, (some (2 : Rat)) = some m → m ≤ q) ∧
          (∀ m, (none : Option Rat) = some m → q ≤ m))) ∧
    fieldMatches [("cantidad", Value.str "3 botellas")] "cantidad"
      (Cond.range (some 2) none) = true ∧
    fieldMatches [("cantidad", Value.str "sin botellas")] "cantidad"
      (Cond.range (some 2) none) = false :=
  ⟨claim_C6 [("cantidad", Value.str "3 botellas")] "cantidad" (Value.str "3 botellas")
      (some 2) none (by decide) (by decide),
   by decide, by decide⟩

/-- C7 counterexample: the claim says the turn-analysis fallback never throws
and a classification failure never surfaces to the caller, but when the
structured classifier fails, the message has none of the fallback keywords
and the plain intent classifier fails as well, the error propagates out of
the analyzer. -/
theorem claim_C7_counterexample :
    analyzeTurn (Except.error ()) (Except.error ()) "hola" [] (some "STOP_DELIVERY") =
      Except.error () := by
  rfl

/-- C7 amended: in a flow, when the structured classifier call fails or its
output is unparsable, the analyzer falls back to the keyword heuristic over
the raw message and reports CONTINUES_FLOW on a keyword hit; otherwise it
falls back to the plain intent classifier and marks the turn an interruption
unless that intent is the chit-chat category; the keyword path never throws,
but a failure of the fallback intent classifier itself propagates to the
caller. -/
theorem claim_C7 (turnRes : Except Unit TurnJson) (clsRes : Except Unit String)
    (message : String) (history : List (String × String)) (fs : Option String)
    (hfs : truthyOpt fs = true) (hterr : turnRes = Except.error ()) :
    (keywordHit message = true →
      analyzeTurn turnRes clsRes message history fs =
        Except.ok { intent := "ANSWER_FLOW", is_interruption := false }) ∧
    (keywordHit message = false → ∀ t, clsRes = Except.ok t →
      analyzeTurn turnRes clsRes message history fs =
        Except.ok { intent := classifyLabel t,
                    is_interruption := !(classifyLabel t == "CHAT") }) ∧
    (keywordHit message = false → clsRes = Except.error () →
      analyzeTurn turnRes clsRes message history fs = Except.error ()) := by
  subst hterr
  unfold analyzeTurn
  rw [hfs]
  simp only [Bool.true_eq_false, if_false]
  refine ⟨fun hk => by simp [hk], fun hk t hc => ?_, fun hk hc => ?_⟩
  · rw [hk, hc]
    simp [classifyIntent]
  · rw [hk, hc]
    simp [classifyIntent]

/-- Witness for C7 on a message containing a fallback keyword. -/
theorem claim_C7_witness :
    analyzeTurn (Except.error ()) (Except.error ()) "si claro" [] (some "STOP_DELIVERY") =
      Except.ok { intent := "ANSWER_FLOW", is_interruption := false } :=
  (claim_C7 (Except.error ()) (Except.error ()) "si claro" [] (some "STOP_DELIVERY")
    (by decide) rfl).1 (by decide)

/-- C2: when the turn analysis classifies the message as an interruption with
the general-question intent, process_request returns the retrieval answer
with the fixed resumption-hint suffix appended, an empty set of context
updates, and the flow marker that was passed in, unchanged. -/
theorem claim_C2 (turnRes : Except Unit TurnJson) (clsRes : Except Unit String)
    (rag : RagOut) (chatText : String)
    (stopExtract urgentExtract : String → Option (List (String × String)) → Option String)
    (stopGen urgentGen : Value → String) (stopEngine urgentEngine : RuleEngine)
    (message : String) (history : List (String × String)) (context : Ctx)
    (fs : Option String)
    (h : analyzeTurn turnRes clsRes message history fs =
      Except.ok { intent := "FAQ", is_interruption := true }) :
    process_request turnRes clsRes rag chatText stopExtract urgentExtract
        stopGen urgentGen stopEngine urgentEngine message history context fs =
      Except.ok { answer := rag.answer ++ resumptionHint, context_updates := [],
                  flow_step := fs, source := "RAG",
                  sources_data := some rag.sources_data, debug_info := none } := by
  unfold process_request
  rw [h]
  rfl

def ragEx : RagOut :=
  { answer := "El agua tiene un pH neutro", sources_data := Value.str "fuentes",
    context_used := Value.str "Doc" }

/-- Witness for C2: a general question asked mid stop-delivery flow keeps the
flow marker STOP_DELIVERY and appends the resumption hint. -/
theorem claim_C2_witness :
    process_request (Except.ok { classification := "INTERRUPTION", detected_intent := "FAQ" })
        (Except.error ()) ragEx "hola" (fun _ _ => none) (fun _ _ => none)
        (fun _ => "") (fun _ => "") eC4 eC4 "cuanto cuesta el agua?" [] []
        (some "STOP_DELIVERY") =
      Except.ok { answer := ragEx.answer ++ resumptionHint, context_updates := [],
                  flow_step := some "STOP_DELIVERY", source := "RAG",
                  sources_data := some ragEx.sources_data, debug_info := none } :=
  claim_C2 (Except.ok { classification := "INTERRUPTION", detected_intent := "FAQ" })
    (Except.error ()) ragEx "hola" (fun _ _ => none) (fun _ _ => none)
    (fun _ => "") (fun _ => "") eC4 eC4 "cuanto cuesta el agua?" [] []
    (some "STOP_DELIVERY") rfl

theorem splitChar_ne_nil (sep : Char) (cs : List Char) : splitChar sep cs ≠ [] := by
  induction cs with
  | nil => simp [splitChar]
  | cons c rest ih =>
    simp only [splitChar]
    split
    · simp
    · cases h : splitChar sep rest with
      | nil => simp
      | cons g gs => simp

theorem splitChar_eq_singleton_of_not_mem (sep : Char) (cs : List Char)
    (h : sep ∉ cs) : splitChar sep cs = [cs] := by
  induction cs with
  | nil => rfl
  | cons c rest ih =>
    simp only [List.mem_cons, not_or] at h
    simp only [splitChar]
    rw [if_neg (fun hc => h.1 hc.symm), ih h.2]

theorem splitChar_two_of_mem (sep : Char) (cs : List Char) (h : sep ∈ cs) :
    ∃ p q rest, splitChar sep cs = p :: q :: rest := by
  induction cs with
  | nil => simp at h
  | cons c rest ih =>
    by_cases hc : c = sep
    · cases hs : splitChar sep rest with
      | nil => exact absurd hs (splitChar_ne_nil _ _)
      | cons g gs => exact ⟨[], g, gs, by simp [splitChar, hc, hs]⟩
    · have hmem : sep ∈ rest := by
        rcases List.mem_cons.1 h with h1 | h1
        · exact absurd h1.symm hc
        · exact h1
      obtain ⟨p, q, r, hpq⟩ := ih hmem
      exact ⟨c :: p, q, r, by simp [splitChar, hc, hpq]⟩

theorem exists_ok_ifChain (A B C : Prop) [Decidable A] [Decidable B] [Decidable C]
    (x y z w : Response) :
    ∃ r, (if A then Except.ok x else if B then Except.ok y else if C then Except.ok z
      else (Except.ok w : Except Unit Response)) = Except.ok r := by
  split
  · exact ⟨x, rfl⟩
  · split
    · exact ⟨y, rfl⟩
    · split
      · exact ⟨z, rfl⟩
      · exact ⟨w, rfl⟩

/-- C10: when a turn continues the active flow (ANSWER_FLOW) with a truthy
flow marker, process_request re-derives the effective intent by splitting the
marker on underscores and indexing the result; this is total exactly for
markers containing an underscore: with an underscore the request returns a
response envelope, and for any non-empty marker without one the position-1
index raises (modelled as Except.error) and no envelope is returned. -/
theorem claim_C10 (turnRes : Except Unit TurnJson) (clsRes : Except Unit String)
    (rag : RagOut) (chatText : String)
    (stopExtract urgentExtract : String → Option (List (String × String)) → Option String)
    (stopGen urgentGen : Value → String) (stopEngine urgentEngine : RuleEngine)
    (message : String) (history : List (String × String)) (context : Ctx)
    (fs : String)
    (h : analyzeTurn turnRes clsRes message history (some fs) =
      Except.ok { intent := "ANSWER_FLOW", is_interruption := false })
    (hfs : truthyOpt (some fs) = true) :
    (('_' ∈ fs.data) → ∃ r, process_request turnRes clsRes rag chatText stopExtract
        urgentExtract stopGen urgentGen stopEngine urgentEngine message history context
        (some fs) = Except.ok r) ∧
    (('_' ∉ fs.data) → process_request turnRes clsRes rag chatText stopExtract
        urgentExtract stopGen urgentGen stopEngine urgentEngine message history context
        (some fs) = Except.error ()) := by
  unfold process_request
  rw [h]
  simp only [Bool.false_and, Bool.false_eq_true, if_false, beq_self_eq_true, Bool.true_and,
    hfs, if_true]
  constructor
  · intro hmem
    obtain ⟨p, q, r, hpq⟩ := splitChar_two_of_mem '_' fs.data hmem
    simp only [splitUnderscore, hpq, List.map_cons]
    split <;> apply exists_ok_ifChain
  · intro hmem
    rw [splitUnderscore, splitChar_eq_singleton_of_not_mem '_' fs.data hmem]
    rfl

/-- Witness for C10: the marker STOP_DELIVERY yields an envelope, the
underscore-free marker STOPX makes the request fail. -/
theorem claim_C10_witness :
    (∃ r, process_request (Except.ok { classification := "ANSWER_FLOW", detected_intent := "CHAT" })
        (Except.error ()) ragEx "hola" (fun _ _ => none) (fun _ _ => none)
        (fun _ => "") (fun _ => "") eC4 eC4 "vale" [] []
        (some "STOP_DELIVERY") = Except.ok r) ∧
    process_request (Except.ok { classification := "ANSWER_FLOW", detected_intent := "CHAT" })
        (Except.error ()) ragEx "hola" (fun _ _ => none) (fun _ _ => none)
        (fun _ => "") (fun _ => "") eC4 eC4 "vale" [] []
        (some "STOPX") = Except.error () :=
  ⟨(claim_C10 (Except.ok { classification := "ANSWER_FLOW", detected_intent := "CHAT" })
      (Except.error ()) ragEx "hola" (fun _ _ => none) (fun _ _ => none)
      (fun _ => "") (fun _ => "") eC4 eC4 "vale" [] [] "STOP_DELIVERY" rfl (by decide)).1
      (by decide),
   (claim_C10 (Except.ok { classification := "ANSWER_FLOW", detected_intent := "CHAT" })
      (Except.error ()) ragEx "hola" (fun _ _ => none) (fun _ _ => none)
      (fun _ => "") (fun _ => "") eC4 eC4 "vale" [] [] "STOPX" rfl (by decide)).2
      (by decide)⟩

theorem mergeSort_singleton {α : Type} (le : α → α → Bool) (a : α) :
    [a].mergeSort le = [a] := by
  have h := List.mergeSort_perm [a] le
  rwa [List.perm_singleton] at h

def rC8 : Rule := { priority := none, when_ := [], then_ := Value.null }

def dC8 : RuleData := { rules := [rC8], required_fields := [], questions := [] }

def eC8 : RuleEngine := RuleEngine.init dC8

/-- C8 counterexample: the claim says that when a rule matches the decision
payload is surfaced as the diagnostic, but the handler tests the returned
payload with Python truthiness, so a matching rule whose then payload is null
(or absent, which the code cannot distinguish) is reported through the
no-rule-matched fallback branch instead. -/
theorem claim_C8_counterexample :
    get_missing_info eC8 [] = none ∧
    eC8.evaluate [] = some Value.null ∧
    (handleStopDelivery eC8 (fun _ _ => none) (fun _ => "") "mensaje" []).1.debug_info =
      some DebugInfo.noRule ∧
    (handleStopDelivery eC8 (fun _ _ => none) (fun _ => "") "mensaje" []).1.answer =
      stopFallbackAnswer := by
  have hrules : eC8.rules = [rC8] := mergeSort_singleton ruleLE rC8
  have heval : eC8.evaluate [] = some Value.null := by
    show evalRules eC8.rules [] = some Value.null
    rw [hrules]
    rfl
  have hstop : (handleStopDelivery eC8 (fun _ _ => none) (fun _ => "") "mensaje" []).1 =
      finishStop eC8 (fun _ => "") [] := rfl
  have hfin : finishStop eC8 (fun _ => "") [] =
      { answer := stopFallbackAnswer, context_updates := [], flow_step := none,
        source := "AGENT_STOP", debug_info := some DebugInfo.noRule } := by
    unfold finishStop
    rw [heval]
    rfl
  exact ⟨rfl, heval, by rw [hstop, hfin], by rw [hstop, hfin]⟩

/-- C8 amended: when every required field is present, the stop-delivery
handler calls RuleEngine.evaluate and clears the flow marker in every
outcome, without touching the caller context; when a rule matches with a
truthy payload, the generated decision answer is returned and the raw payload
is surfaced as the diagnostic; when no rule matches, or the matching payload
is falsy (null, empty or zero), the fixed manual-review fallback message is
returned with the no-rule-matched diagnostic, and this is not an error. -/
theorem claim_C8 (e : RuleEngine)
    (extract : String → Option (List (String × String)) → Option String)
    (gen : Value → String) (message : String) (ctx : Ctx)
    (hmi : get_missing_info e ctx = none) :
    (handleStopDelivery e extract gen message ctx).1.flow_step = none ∧
    (handleStopDelivery e extract gen message ctx).2 = ctx ∧
    (∀ d, e.evaluate ctx = some d → pyTruthy d = true →
      (handleStopDelivery e extract gen message ctx).1 =
        { answer := gen d, context_updates := ctx, flow_step := none,
          source := "AGENT_STOP", debug_info := some (DebugInfo.decision d) }) ∧
    ((e.evaluate ctx = none ∨ ∃ d, e.evaluate ctx = some d ∧ pyTruthy d = false) →
      (handleStopDelivery e extract gen message ctx).1 =
        { answer := stopFallbackAnswer, context_updates := [], flow_step := none,
          source := "AGENT_STOP", debug_info := some DebugInfo.noRule }) := by
  have hh : handleStopDelivery e extract gen message ctx = (finishStop e gen ctx, ctx) := by
    unfold handleStopDelivery
    rw [hmi]
  refine ⟨?_, ?_, ?_, ?_⟩
  · rw [hh]
    show (finishStop e gen ctx).flow_step = none
    unfold finishStop
    cases heval : e.evaluate ctx with
    | none => rfl
    | some d => by_cases hd : pyTruthy d <;> simp [hd]
  · rw [hh]
  · intro d hd htr
    rw [hh]
    show finishStop e gen ctx = _
    unfold finishStop
    rw [hd]
    simp [htr]
  · intro hcase
    rw [hh]
    show finishStop e gen ctx = _
    unfold finishStop
    rcases hcase with hnone | ⟨d, hd, hft⟩
    · rw [hnone]
    · rw [hd]
      simp [hft]

def rC8b : Rule := { priority := some 2, when_ := [], then_ := Value.str "APROBADO" }

def dC8b : RuleData := { rules := [rC8b], required_fields := [], questions := [] }

def eC8b : RuleEngine := RuleEngine.init dC8b

/-- Witness for C8 on a rule set whose matching rule carries a truthy
decision payload. -/
theorem claim_C8_witness :
    (handleStopDelivery eC8b (fun _ _ => none) (fun _ => "Listo") "mensaje" []).1 =
      { answer := "Listo", context_updates := [], flow_step := none,
        source := "AGENT_STOP", debug_info := some (DebugInfo.decision (Value.str "APROBADO")) } :=
  (claim_C8 eC8b (fun _ _ => none) (fun _ => "Listo") "mensaje" [] rfl).2.2.1
    (Value.str "APROBADO")
    (by
      show evalRules eC8b.rules [] = some (Value.str "APROBADO")
      rw [show eC8b.rules = [rC8b] from mergeSort_singleton ruleLE rC8b]
      rfl)
    rfl

def dC9 : RuleData :=
  { rules := [], required_fields := ["motivo"], questions := [("motivo", qdMotivo)] }

def eC9 : RuleEngine := RuleEngine.init dC9

def ctxC9 : Ctx := [("zona", Value.str "norte")]

/-- C9 counterexample: the claim says context_updates contains only the
fields changed during the turn and never the whole context, but in the
re-prompt branch (nothing extracted) the stop-delivery handler returns the
entire fact context as context_updates, including an unrelated field it did
not touch, on a turn that changed nothing. -/
theorem claim_C9_counterexample :
    (handleStopDelivery eC9 (fun _ _ => none) (fun _ => "") "hola" ctxC9).1.context_updates =
      ctxC9 ∧
    (handleStopDelivery eC9 (fun _ _ => none) (fun _ => "") "hola" ctxC9).2 = ctxC9 ∧
    ctxC9 ≠ [] := by
  exact ⟨rfl, rfl, by decide⟩

/-- C9 amended: the context_updates of the stop-delivery handler are the
single pair keyed by the next missing field when a value was extracted and
another field is still missing; the whole fact context both in the re-prompt
branch (nothing extracted) and in the truthy-decision branch; and empty when
no rule matched; moreover the handler writes each extracted value into the
caller-owned context in place. -/
theorem claim_C9 (e : RuleEngine)
    (extract : String → Option (List (String × String)) → Option String)
    (gen : Value → String) (message : String) (ctx : Ctx) :
    (∀ mi, get_missing_info e ctx = some mi →
      normExtract (extract mi.missing_field mi.options) = none →
      (handleStopDelivery e extract gen message ctx).1.context_updates = ctx ∧
      (handleStopDelivery e extract gen message ctx).2 = ctx) ∧
    (∀ mi v, get_missing_info e ctx = some mi →
      normExtract (extract mi.missing_field mi.options) = some v →
      (handleStopDelivery e extract gen message ctx).2 =
        ctxSet ctx mi.missing_field (Value.str v) ∧
      (∀ mi2, get_missing_info e (ctxSet ctx mi.missing_field (Value.str v)) = some mi2 →
        (handleStopDelivery e extract gen message ctx).1.context_updates =
          [(mi2.missing_field, Value.str v)])) ∧
    (∀ ctx2 d, e.evaluate ctx2 = some d → pyTruthy d = true →
      (finishStop e gen ctx2).context_updates = ctx2) ∧
    (∀ ctx2, (e.evaluate ctx2 = none ∨ ∃ d, e.evaluate ctx2 = some d ∧ pyTruthy d = false) →
      (finishStop e gen ctx2).context_updates = []) := by
  refine ⟨?_, ?_, ?_, ?_⟩
  · intro mi hmi hex
    unfold handleStopDelivery
    simp only [hmi]
    rw [hex]
    exact ⟨rfl, rfl⟩
  · intro mi v hmi hex
    unfold handleStopDelivery
    simp only [hmi]
    simp only [hex]
    cases hmi2 : get_missing_info e (ctxSet ctx mi.missing_field (Value.str v)) with
    | none =>
      simp only [hmi2]
      refine ⟨trivial, ?_⟩
      intro mi2 h2
      simp at h2
    | some mi2 =>
      simp only [hmi2]
      refine ⟨trivial, ?_⟩
      intro mi2x h2
      have hx : mi2 = mi2x := by injection h2
      rw [← hx]
  · intro ctx2 d hd htr
    unfold finishStop
    rw [hd]
    simp [htr]
  · intro ctx2 hcase
    unfold finishStop
    rcases hcase with hnone | ⟨d, hd, hft⟩
    · rw [hnone]
    · rw [hd]
      simp [hft]

def miC9 : MissingInfo :=
  { missing_field := "motivo", question := "Cual es el motivo?",
    options := some [("exceso_agua", "Exceso de agua")] }

/-- Witness for C9: the re-prompt branch on a context holding one unrelated
field returns that whole context as context_updates. -/
theorem claim_C9_witness :
    (handleStopDelivery eC9 (fun _ _ => none) (fun _ => "") "hola"
        [("dir", Value.str "calle 2")]).1.context_updates = [("dir", Value.str "calle 2")] ∧
    (handleStopDelivery eC9 (fun _ _ => none) (fun _ => "") "hola"
        [("dir", Value.str "calle 2")]).2 = [("dir", Value.str "calle 2")] :=
  (claim_C9 eC9 (fun _ _ => none) (fun _ => "") "hola" [("dir", Value.str "calle 2")]).1
    miC9 rfl rfl

def exMotivo : String → Option (List (String × String)) → Option String :=
  fun f _ => if f == "motivo" then some "exceso_agua" else none

/-- C3 evaluated at the failing input: in a stop-delivery flow requiring
motivo then fecha, the turn that supplies motivo stores it in the handler
local context but returns context_updates keyed by the NEXT missing field
fecha (the local name missing was rebound before the update dict was built);
after the caller merges those updates into its empty context, the next turn
reports motivo missing again and re-asks the motivo question that was already
answered. -/
theorem claim_C3_exec :
    (handleStopDelivery eC4 exMotivo (fun _ => "") "exceso de agua" []).2 =
      [("motivo", Value.str "exceso_agua")] ∧
    (handleStopDelivery eC4 exMotivo (fun _ => "") "exceso de agua" []).1.answer =
      "Gracias. " ++ qdFecha.question ∧
    (handleStopDelivery eC4 exMotivo (fun _ => "") "exceso de agua" []).1.context_updates =
      [("fecha", Value.str "exceso_agua")] ∧
    mergeCtx [] (handleStopDelivery eC4 exMotivo (fun _ => "") "exceso de agua" []).1.context_updates =
      [("fecha", Value.str "exceso_agua")] ∧
    (handleStopDelivery eC4 (fun _ _ => none) (fun _ => "") "el lunes"
        [("fecha", Value.str "exceso_agua")]).1.answer = qdMotivo.question ∧
    (handleStopDelivery eC4 (fun _ _ => none) (fun _ => "") "el lunes"
        [("fecha", Value.str "exceso_agua")]).1.debug_info =
      some (DebugInfo.collecting "motivo") := by
  exact ⟨rfl, rfl, rfl, rfl, rfl, rfl⟩

end RagCore

-- Sanity examples for the number extraction (the spec examples of section 8).
example : RagCore.toNumber (RagCore.Value.str "3 botellas") = some 3 := by decide
example : RagCore.toNumber (RagCore.Value.str "sin botellas") = none := by decide
example : RagCore.toNumber (RagCore.Value.str "a-12b") = some (-12) := by decide
example : RagCore.toNumber (RagCore.Value.bool true) = some 1 := by decide
